import Mathlib

/-!
Shallow embedding of the task-list client of this repository:
the react-query custom hooks (useFetchTasks, useCreateTask, useEditTask,
useDeleteTask, embedded at the end of starter/axios_notes.md), the list
component starter/src/Items.jsx and the item component
starter/src/SingleItem.jsx.

JavaScript dynamic values are modelled by the inductive type JsVal, with
property access (`x.field`) modelled by JsVal.getField, which throws a
TypeError exactly when the receiver is undefined or null.  The shared
react-query cache is modelled by an association list from query keys to
cached values; `queryClient.invalidateQueries` discards the entry for the
given key (the spec glossary defines invalidation as discarding the cached
data so the next read re-fetches).  Toast notifications are collected in a
list of ToastCall values.
-/

namespace Client

/-- A JavaScript runtime value, as far as the client code inspects it. -/
inductive JsVal where
  | undefined : JsVal
  | null : JsVal
  | boolean : Bool → JsVal
  | num : Int → JsVal
  | str : String → JsVal
  | arr : List JsVal → JsVal
  | obj : List (String × JsVal) → JsVal

/-- The only runtime error the modelled code can raise: a TypeError from
reading a property of undefined or null. -/
inductive JsError where
  | typeError : JsError
deriving DecidableEq

/-- JavaScript property access `v.f`: throws a TypeError on undefined and
null, yields the field value on an object that has the field, and yields
undefined on any other receiver (missing field, primitive, array). -/
def JsVal.getField : JsVal → String → Except JsError JsVal
  | JsVal.undefined, _ => Except.error JsError.typeError
  | JsVal.null, _ => Except.error JsError.typeError
  | JsVal.obj fields, f =>
      match fields.lookup f with
      | Option.some v => Except.ok v
      | Option.none => Except.ok JsVal.undefined
  | _, _ => Except.ok JsVal.undefined

/-- The domain entity: a task record as served by the backend. -/
structure Task where
  id : String
  title : String
  isDone : Bool
deriving DecidableEq

/-- A task as a JavaScript value. -/
def Task.toJs (t : Task) : JsVal :=
  JsVal.obj [("id", JsVal.str t.id), ("title", JsVal.str t.title),
             ("isDone", JsVal.boolean t.isDone)]

/-- HTTP verbs exposed by the axios instance. -/
inductive Method where
  | get : Method
  | post : Method
  | patch : Method
  | delete : Method
deriving DecidableEq

/-- One HTTP request issued through the customFetch axios instance:
verb, path relative to the base URL, and optional JSON body. -/
structure Request where
  method : Method
  path : String
  body : Option JsVal

/-- Base URL of the customFetch axios instance, from starter/README.md
(Custom Axios Instance step). -/
def customFetch.baseURL : String := "http://localhost:5000/api/tasks"

/-- A successful axios response: status code and parsed JSON data. -/
structure AxiosResponse where
  status : Nat
  data : JsVal

/-- The react-query client cache: query keys mapped to cached data. -/
structure QueryCache where
  entries : List (List String × JsVal)

/-- Cached data under a query key, if any. -/
def QueryCache.lookup (c : QueryCache) (key : List String) : Option JsVal :=
  (c.entries.find? (fun kv => kv.1 = key)).map (fun kv => kv.2)

/-- queryClient.invalidateQueries for a query key: the cached data under
that key is discarded, so the next read re-fetches. -/
def QueryCache.invalidate (c : QueryCache) (key : List String) : QueryCache :=
  ⟨c.entries.filter (fun kv => kv.1 ≠ key)⟩

/-- A toast notification emitted by the hooks. -/
inductive ToastCall where
  | success : String → ToastCall
  | error : JsVal → ToastCall

/-- How a dispatched request settled: the server answered successfully, or
the promise rejected with an axios error value. -/
inductive MutationOutcome where
  | success : JsVal → MutationOutcome
  | failure : JsVal → MutationOutcome

/-- The unguarded access `error.response.data.msg` performed by every
onError handler of the three mutation hooks. -/
def errorResponseDataMsg (error : JsVal) : Except JsError JsVal := do
  let r ← error.getField "response"
  let d ← r.getField "data"
  d.getField "msg"

/-- An axios error carrying a server response whose JSON body has a msg
field, as produced by a non-2xx status. -/
def mkServerError (status : Nat) (msg : String) : JsVal :=
  JsVal.obj [("response",
    JsVal.obj [("status", JsVal.num status),
               ("data", JsVal.obj [("msg", JsVal.str msg)])])]

namespace useFetchTasks

/-- Query key of the list query. -/
def queryKey : List String := ["tasks"]

/-- The single request issued by the queryFn: GET against the collection
root. -/
def request : Request := ⟨Method.get, "/", Option.none⟩

/-- The queryFn body after the response arrives: destructures data out of
the axios response and returns it. -/
def queryFn (response : AxiosResponse) : JsVal := response.data

/-- Observable lifecycle of the list query. -/
inductive Status where
  | pending : Status
  | failure : JsVal → Status
  | ready : JsVal → Status

/-- The record destructured from useQuery. -/
structure State where
  isLoading : Bool
  data : JsVal
  isError : Bool

/-- The useQuery flags in each lifecycle state: loading while pending,
error after a failure, data available when ready. -/
def state : Status → State
  | Status.pending => ⟨true, JsVal.undefined, false⟩
  | Status.failure _ => ⟨false, JsVal.undefined, true⟩
  | Status.ready d => ⟨false, d, false⟩

/-- Field names of the record returned by useFetchTasks. -/
def returnedFields : List String := ["isLoading", "data", "isError"]

end useFetchTasks

namespace useCreateTask

/-- mutationFn: one POST to the collection root with body holding the
title. -/
def mutationFn (taskTitle : JsVal) : List Request :=
  [⟨Method.post, "/", Option.some (JsVal.obj [("title", taskTitle)])⟩]

/-- onSuccess: invalidate the tasks query and toast a success message. -/
def onSuccess (c : QueryCache) : QueryCache × List ToastCall :=
  (c.invalidate ["tasks"], [ToastCall.success "Task added ✅"])

/-- onError: toast `error.response.data.msg`; the cache is not touched. -/
def onError (error : JsVal) (c : QueryCache) :
    Except JsError (QueryCache × List ToastCall) :=
  (errorResponseDataMsg error).map (fun m => (c, [ToastCall.error m]))

/-- Field names of the record returned by useCreateTask. -/
def returnedFields : List String := ["createTask", "createTaskLoading"]

end useCreateTask

/-- The cache and toast effects of a settled create mutation. -/
def settleCreateTask (c : QueryCache) :
    MutationOutcome → Except JsError (QueryCache × List ToastCall)
  | MutationOutcome.success _ => Except.ok (useCreateTask.onSuccess c)
  | MutationOutcome.failure e => useCreateTask.onError e c

namespace useEditTask

/-- The argument object the caller passes to editTask. -/
structure Args where
  taskId : String
  isDone : Bool

/-- mutationFn: one PATCH to the sub-path of the task with a body holding
only the isDone flag. -/
def mutationFn (args : Args) : List Request :=
  [⟨Method.patch, "/" ++ args.taskId,
    Option.some (JsVal.obj [("isDone", JsVal.boolean args.isDone)])⟩]

/-- onSuccess: invalidate the tasks query; no toast. -/
def onSuccess (c : QueryCache) : QueryCache × List ToastCall :=
  (c.invalidate ["tasks"], [])

/-- onError: toast `error.response.data.msg`; the cache is not touched. -/
def onError (error : JsVal) (c : QueryCache) :
    Except JsError (QueryCache × List ToastCall) :=
  (errorResponseDataMsg error).map (fun m => (c, [ToastCall.error m]))

/-- Field names of the record returned by useEditTask. -/
def returnedFields : List String := ["editTask"]

end useEditTask

/-- The cache and toast effects of a settled edit mutation. -/
def settleEditTask (c : QueryCache) :
    MutationOutcome → Except JsError (QueryCache × List ToastCall)
  | MutationOutcome.success _ => Except.ok (useEditTask.onSuccess c)
  | MutationOutcome.failure e => useEditTask.onError e c

namespace useDeleteTask

/-- mutationFn: one DELETE to the sub-path of the task, no body. -/
def mutationFn (taskId : String) : List Request :=
  [⟨Method.delete, "/" ++ taskId, Option.none⟩]

/-- onSuccess: invalidate the tasks query; no toast. -/
def onSuccess (c : QueryCache) : QueryCache × List ToastCall :=
  (c.invalidate ["tasks"], [])

/-- onError: toast `error.response.data.msg`; the cache is not touched. -/
def onError (error : JsVal) (c : QueryCache) :
    Except JsError (QueryCache × List ToastCall) :=
  (errorResponseDataMsg error).map (fun m => (c, [ToastCall.error m]))

/-- Field names of the record returned by useDeleteTask. -/
def returnedFields : List String := ["deleteTask", "deleteTaskLoading"]

end useDeleteTask

/-- The cache and toast effects of a settled delete mutation. -/
def settleDeleteTask (c : QueryCache) :
    MutationOutcome → Except JsError (QueryCache × List ToastCall)
  | MutationOutcome.success _ => Except.ok (useDeleteTask.onSuccess c)
  | MutationOutcome.failure e => useDeleteTask.onError e c

/-- Props of a SingleItem element created by Items: the key attribute and
the item prop. -/
structure SingleItemProps where
  key : JsVal
  item : JsVal

/-- What Items renders: fixed loading text, fixed error text, or one
SingleItem element per task. -/
inductive Render where
  | loadingText : String → Render
  | errorText : String → Render
  | itemsList : List SingleItemProps → Render

namespace Items

/-- The element Items creates for one list entry:
SingleItem with key bound to item.id and the item itself as prop
(reading id of a nullish entry would throw). -/
def renderChild (item : JsVal) : Except JsError SingleItemProps := do
  let k ← item.getField "id"
  pure ⟨k, item⟩

/-- The map callback applied to each array element in order; a throw in
the callback aborts the whole map. -/
def renderChildren : List JsVal → Except JsError (List SingleItemProps)
  | [] => Except.ok []
  | item :: rest => do
      let p ← renderChild item
      let ps ← renderChildren rest
      pure (p :: ps)

/-- The Items component body: early return of fixed text while loading or
on error; otherwise it maps data.taskList over renderChild, where the
taskList access throws on nullish data and calling map on a non-array
throws. -/
def render (st : useFetchTasks.State) : Except JsError Render :=
  if st.isLoading then Except.ok (Render.loadingText "Loading...")
  else if st.isError then
    Except.ok (Render.errorText "There was an error Skyy! ⚠️..")
  else do
    let tl ← st.data.getField "taskList"
    match tl with
    | JsVal.arr l => (renderChildren l).map Render.itemsList
    | _ => Except.error JsError.typeError

end Items

namespace SingleItem

/-- The checkbox onChange handler calls editTask with the id of the item
and the negation of its current isDone flag. -/
def editArgs (item : Task) : useEditTask.Args :=
  ⟨item.id, !item.isDone⟩

/-- View of the delete button: class name, disabled flag and label. -/
structure ButtonView where
  className : String
  disabled : Bool
  label : String

/-- The delete button as rendered: its disabled attribute is bound to the
deleteTaskLoading flag of the delete mutation. -/
def deleteButton (deleteTaskLoading : Bool) : ButtonView :=
  ⟨"btn remove-btn", deleteTaskLoading, "delete"⟩

/-- Browser semantics: a click on a disabled button does not fire its
onClick handler. -/
def ButtonView.click (b : ButtonView) (handler : List Request) :
    List Request :=
  if b.disabled then [] else handler

/-- The requests dispatched by a click on the delete button of an item
while the delete mutation has the given loading flag. -/
def clickDelete (item : Task) (deleteTaskLoading : Bool) : List Request :=
  (deleteButton deleteTaskLoading).click (useDeleteTask.mutationFn item.id)

end SingleItem

/-- Field names that expose loading state in the hook return records. -/
def loadingFieldNames : List String :=
  ["isLoading", "createTaskLoading", "deleteTaskLoading"]

/-- Field names that expose error state in the hook return records. -/
def errorFieldNames : List String := ["isError"]

/-- Field names that expose the result in the hook return records. -/
def resultFieldNames : List String := ["data"]

/-- Stated from the spec wording, for comparison with the embedded hook
return records: a return record exposes loading, error and result state
when it contains a field of each of the three kinds. -/
def exposesLoadingErrorResultState (fields : List String) : Bool :=
  fields.any (fun f => loadingFieldNames.contains f) &&
  fields.any (fun f => errorFieldNames.contains f) &&
  fields.any (fun f => resultFieldNames.contains f)

/-- Invalidation discards the cached entry: after invalidating a key, a
lookup of that key finds nothing. -/
theorem QueryCache.lookup_invalidate (c : QueryCache) (key : List String) :
    (c.invalidate key).lookup key = Option.none := by
  rcases c with ⟨entries⟩
  unfold QueryCache.invalidate QueryCache.lookup
  simp [List.find?_eq_none, List.mem_filter]

/-- Claim C1: a create that fails with a server-reported error whose JSON
body carries a msg field leaves the query cache exactly unchanged (no
invalidation, no modification) and surfaces the msg string verbatim in the
error toast. -/
theorem claim_C1_create_failure_leaves_cache
    (c : QueryCache) (e : JsVal) (s : String)
    (h : errorResponseDataMsg e = Except.ok (JsVal.str s)) :
    settleCreateTask c (MutationOutcome.failure e) =
      Except.ok (c, [ToastCall.error (JsVal.str s)]) := by
  simp [settleCreateTask, useCreateTask.onError, h, Except.map]

/-- Witness for C1: a 400 response with msg "title required" against a
cache holding a task list under the tasks key. -/
theorem claim_C1_witness :
    settleCreateTask ⟨[(["tasks"], JsVal.arr [])]⟩
      (MutationOutcome.failure (mkServerError 400 "title required")) =
      Except.ok (⟨[(["tasks"], JsVal.arr [])]⟩,
        [ToastCall.error (JsVal.str "title required")]) :=
  claim_C1_create_failure_leaves_cache _ _ "title required" rfl

/-- Claim C2: every successful mutation (create, edit, delete) settles to
the cache with the tasks entry invalidated, the invalidated entry is
indeed discarded (the lookup finds nothing, forcing a re-fetch), and no
mutation writes the cached list directly: a failed mutation either leaves
the cache exactly unchanged or throws, so the cache is never assigned a
new list by a mutation. -/
theorem claim_C2_mutations_invalidate
    (c : QueryCache) (r e : JsVal) :
    settleCreateTask c (MutationOutcome.success r) =
      Except.ok (c.invalidate ["tasks"],
        [ToastCall.success "Task added ✅"]) ∧
    settleEditTask c (MutationOutcome.success r) =
      Except.ok (c.invalidate ["tasks"], []) ∧
    settleDeleteTask c (MutationOutcome.success r) =
      Except.ok (c.invalidate ["tasks"], []) ∧
    (c.invalidate ["tasks"]).lookup ["tasks"] = Option.none ∧
    ((∃ ts, settleCreateTask c (MutationOutcome.failure e) =
        Except.ok (c, ts)) ∨
      settleCreateTask c (MutationOutcome.failure e) =
        Except.error JsError.typeError) ∧
    ((∃ ts, settleEditTask c (MutationOutcome.failure e) =
        Except.ok (c, ts)) ∨
      settleEditTask c (MutationOutcome.failure e) =
        Except.error JsError.typeError) ∧
    ((∃ ts, settleDeleteTask c (MutationOutcome.failure e) =
        Except.ok (c, ts)) ∨
      settleDeleteTask c (MutationOutcome.failure e) =
        Except.error JsError.typeError) := by
  refine ⟨rfl, rfl, rfl, QueryCache.lookup_invalidate c ["tasks"], ?_, ?_, ?_⟩
  all_goals
    cases he : errorResponseDataMsg e with
    | ok m =>
        exact Or.inl ⟨[ToastCall.error m],
          by simp [settleCreateTask, settleEditTask, settleDeleteTask,
                   useCreateTask.onError, useEditTask.onError,
                   useDeleteTask.onError, he, Except.map]⟩
    | error err =>
        cases err
        exact Or.inr
          (by simp [settleCreateTask, settleEditTask, settleDeleteTask,
                    useCreateTask.onError, useEditTask.onError,
                    useDeleteTask.onError, he, Except.map])

/-- Claim C3 counterexample: a list failure where the server reported the
msg "title required" is rendered as the fixed client-side error text, not
as the server msg, so not every failure is surfaced from the msg field. -/
theorem claim_C3_counterexample :
    Items.render (useFetchTasks.state
      (useFetchTasks.Status.failure (mkServerError 400 "title required"))) =
      Except.ok (Render.errorText "There was an error Skyy! ⚠️..") ∧
    "There was an error Skyy! ⚠️.." ≠ "title required" :=
  ⟨rfl, by decide⟩

/-- Claim C3 amended: failures of the three mutations that carry a server
response with a msg field are surfaced verbatim via an error toast, while
a failure of the list operation is surfaced immediately but as a fixed
client-side error text that is not sourced from the server msg field. -/
theorem claim_C3_amended_failure_surfacing
    (c : QueryCache) (eList e : JsVal) (s : String)
    (h : errorResponseDataMsg e = Except.ok (JsVal.str s)) :
    Items.render (useFetchTasks.state (useFetchTasks.Status.failure eList)) =
      Except.ok (Render.errorText "There was an error Skyy! ⚠️..") ∧
    settleCreateTask c (MutationOutcome.failure e) =
      Except.ok (c, [ToastCall.error (JsVal.str s)]) ∧
    settleEditTask c (MutationOutcome.failure e) =
      Except.ok (c, [ToastCall.error (JsVal.str s)]) ∧
    settleDeleteTask c (MutationOutcome.failure e) =
      Except.ok (c, [ToastCall.error (JsVal.str s)]) := by
  refine ⟨rfl, ?_, ?_, ?_⟩
  all_goals
    simp [settleCreateTask, settleEditTask, settleDeleteTask,
          useCreateTask.onError, useEditTask.onError,
          useDeleteTask.onError, h, Except.map]

/-- Witness for the amended C3: a 400 response with msg "title required"
against the empty cache. -/
theorem claim_C3_amended_witness :
    Items.render (useFetchTasks.state
      (useFetchTasks.Status.failure (mkServerError 400 "title required"))) =
      Except.ok (Render.errorText "There was an error Skyy! ⚠️..") ∧
    settleCreateTask ⟨[]⟩
      (MutationOutcome.failure (mkServerError 400 "title required")) =
      Except.ok (⟨[]⟩, [ToastCall.error (JsVal.str "title required")]) ∧
    settleEditTask ⟨[]⟩
      (MutationOutcome.failure (mkServerError 400 "title required")) =
      Except.ok (⟨[]⟩, [ToastCall.error (JsVal.str "title required")]) ∧
    settleDeleteTask ⟨[]⟩
      (MutationOutcome.failure (mkServerError 400 "title required")) =
      Except.ok (⟨[]⟩, [ToastCall.error (JsVal.str "title required")]) :=
  claim_C3_amended_failure_surfacing ⟨[]⟩
    (mkServerError 400 "title required")
    (mkServerError 400 "title required") "title required" rfl

/-- Claim C4 counterexample: the record returned by useEditTask exposes
neither loading nor error nor result state to its caller, refuting the
claim that each of the four operations does. -/
theorem claim_C4_counterexample :
    exposesLoadingErrorResultState useEditTask.returnedFields = false := by
  decide

/-- Claim C4 amended: the list operation exposes loading, error and result
state; the create and delete operations expose only the mutate function
and a loading flag; the update operation exposes only the mutate function;
no mutation hook exposes error or result state to its caller. -/
theorem claim_C4_amended_exposed_state :
    exposesLoadingErrorResultState useFetchTasks.returnedFields = true ∧
    useCreateTask.returnedFields = ["createTask", "createTaskLoading"] ∧
    useEditTask.returnedFields = ["editTask"] ∧
    useDeleteTask.returnedFields = ["deleteTask", "deleteTaskLoading"] ∧
    exposesLoadingErrorResultState useCreateTask.returnedFields = false ∧
    exposesLoadingErrorResultState useDeleteTask.returnedFields = false := by
  refine ⟨by decide, rfl, rfl, rfl, by decide, by decide⟩

/-- Claim C5: for every title value, the create mutation issues exactly
the one POST request to the collection root with a body holding only the
title field; on success it invalidates the cached list and toasts a
success notification; on a failure carrying a server msg it toasts that
msg. -/
theorem claim_C5_create_contract
    (t : JsVal) (c : QueryCache) (r e : JsVal) (s : String)
    (h : errorResponseDataMsg e = Except.ok (JsVal.str s)) :
    useCreateTask.mutationFn t =
      [⟨Method.post, "/", Option.some (JsVal.obj [("title", t)])⟩] ∧
    settleCreateTask c (MutationOutcome.success r) =
      Except.ok (c.invalidate ["tasks"],
        [ToastCall.success "Task added ✅"]) ∧
    settleCreateTask c (MutationOutcome.failure e) =
      Except.ok (c, [ToastCall.error (JsVal.str s)]) := by
  refine ⟨rfl, rfl, ?_⟩
  simp [settleCreateTask, useCreateTask.onError, h, Except.map]

/-- Witness for C5: title "buy milk", a 400 response with msg
"title required", and the empty cache. -/
theorem claim_C5_witness :
    useCreateTask.mutationFn (JsVal.str "buy milk") =
      [⟨Method.post, "/",
        Option.some (JsVal.obj [("title", JsVal.str "buy milk")])⟩] ∧
    settleCreateTask ⟨[]⟩ (MutationOutcome.success JsVal.undefined) =
      Except.ok (QueryCache.invalidate ⟨[]⟩ ["tasks"],
        [ToastCall.success "Task added ✅"]) ∧
    settleCreateTask ⟨[]⟩
      (MutationOutcome.failure (mkServerError 400 "title required")) =
      Except.ok (⟨[]⟩, [ToastCall.error (JsVal.str "title required")]) :=
  claim_C5_create_contract (JsVal.str "buy milk") ⟨[]⟩ JsVal.undefined
    (mkServerError 400 "title required") "title required" rfl

/-- Claim C6: for every task identifier and target boolean, the edit
mutation issues exactly the one PATCH request to the sub-path of the task
with a body holding only the isDone field; on success it invalidates the
cached list; and the SingleItem checkbox handler, its only caller, passes
the id of the item together with the negation of its current isDone
flag. -/
theorem claim_C6_edit_contract
    (args : useEditTask.Args) (c : QueryCache) (r : JsVal) (item : Task) :
    useEditTask.mutationFn args =
      [⟨Method.patch, "/" ++ args.taskId,
        Option.some (JsVal.obj [("isDone", JsVal.boolean args.isDone)])⟩] ∧
    settleEditTask c (MutationOutcome.success r) =
      Except.ok (c.invalidate ["tasks"], []) ∧
    SingleItem.editArgs item = ⟨item.id, !item.isDone⟩ :=
  ⟨rfl, rfl, rfl⟩

/-- Claim C7: a successful list fetch of the empty collection leaves the
query in the ready state (neither loading nor error) and Items renders an
empty list of elements. -/
theorem claim_C7_empty_collection :
    (useFetchTasks.state (useFetchTasks.Status.ready (useFetchTasks.queryFn
      ⟨200, JsVal.obj [("taskList", JsVal.arr [])]⟩))).isLoading = false ∧
    (useFetchTasks.state (useFetchTasks.Status.ready (useFetchTasks.queryFn
      ⟨200, JsVal.obj [("taskList", JsVal.arr [])]⟩))).isError = false ∧
    Items.render (useFetchTasks.state (useFetchTasks.Status.ready
      (useFetchTasks.queryFn
        ⟨200, JsVal.obj [("taskList", JsVal.arr [])]⟩))) =
      Except.ok (Render.itemsList []) :=
  ⟨rfl, rfl, rfl⟩

/-- Claim C8: every mutation onError handler reads the unguarded chain
error.response.data.msg; when the error carries a response whose data has
a msg field the access is well defined and the value is toasted, and when
the error has no response (a transport failure) the same handlers throw a
TypeError instead of toasting. -/
theorem claim_C8_onerror_access
    (c : QueryCache) (e1 e2 v : JsVal)
    (h1 : errorResponseDataMsg e1 = Except.ok v)
    (h2 : JsVal.getField e2 "response" = Except.ok JsVal.undefined) :
    useCreateTask.onError e1 c = Except.ok (c, [ToastCall.error v]) ∧
    useEditTask.onError e1 c = Except.ok (c, [ToastCall.error v]) ∧
    useDeleteTask.onError e1 c = Except.ok (c, [ToastCall.error v]) ∧
    useCreateTask.onError e2 c = Except.error JsError.typeError ∧
    useEditTask.onError e2 c = Except.error JsError.typeError ∧
    useDeleteTask.onError e2 c = Except.error JsError.typeError := by
  have hmsg : errorResponseDataMsg e2 = Except.error JsError.typeError := by
    unfold errorResponseDataMsg
    rw [h2]
    rfl
  refine ⟨?_, ?_, ?_, ?_, ?_, ?_⟩
  all_goals
    simp [useCreateTask.onError, useEditTask.onError, useDeleteTask.onError,
          h1, hmsg, Except.map]

/-- Witness for C8: a 500 response with msg "server down" on one hand and
a transport failure without a response property on the other, against the
empty cache. -/
theorem claim_C8_witness :
    useCreateTask.onError (mkServerError 500 "server down") ⟨[]⟩ =
      Except.ok (⟨[]⟩, [ToastCall.error (JsVal.str "server down")]) ∧
    useEditTask.onError (mkServerError 500 "server down") ⟨[]⟩ =
      Except.ok (⟨[]⟩, [ToastCall.error (JsVal.str "server down")]) ∧
    useDeleteTask.onError (mkServerError 500 "server down") ⟨[]⟩ =
      Except.ok (⟨[]⟩, [ToastCall.error (JsVal.str "server down")]) ∧
    useCreateTask.onError (JsVal.obj [("message", JsVal.str "Network Error")])
      ⟨[]⟩ = Except.error JsError.typeError ∧
    useEditTask.onError (JsVal.obj [("message", JsVal.str "Network Error")])
      ⟨[]⟩ = Except.error JsError.typeError ∧
    useDeleteTask.onError (JsVal.obj [("message", JsVal.str "Network Error")])
      ⟨[]⟩ = Except.error JsError.typeError :=
  claim_C8_onerror_access ⟨[]⟩ (mkServerError 500 "server down")
    (JsVal.obj [("message", JsVal.str "Network Error")])
    (JsVal.str "server down") rfl rfl

/-- Claim C9: while the delete mutation of an item is in flight, the
delete button of that item is rendered disabled, and a click on it
dispatches no request, while a click with the mutation idle dispatches the
one DELETE request for the item. -/
theorem claim_C9_delete_button_disabled (item : Task) :
    (SingleItem.deleteButton true).disabled = true ∧
    SingleItem.clickDelete item true = [] ∧
    SingleItem.clickDelete item false =
      [⟨Method.delete, "/" ++ item.id, Option.none⟩] :=
  ⟨rfl, rfl, rfl⟩

/-- Rendering a list of well-formed task objects never throws: each child
element gets the id of the task as key and the task itself as prop. -/
theorem renderChildren_tasks (l : List Task) :
    Items.renderChildren (l.map Task.toJs) =
      Except.ok (l.map (fun t => ⟨JsVal.str t.id, Task.toJs t⟩)) := by
  induction l with
  | nil => rfl
  | cons t rest ih =>
      simp only [List.map_cons, Items.renderChildren, ih]
      rfl

/-- Claim C10: Items reads data.taskList only in the ready state: while
loading, and on error, it returns the fixed text early for every data
value (even undefined) without touching it, and in the ready state, when
the payload has the shape of a taskList field holding an array of task
records, the map over data.taskList is well defined and yields one element
per task. -/
theorem claim_C10_items_guarded_deref
    (d1 d2 : JsVal) (b : Bool) (l : List Task) :
    Items.render ⟨true, d1, b⟩ = Except.ok (Render.loadingText "Loading...") ∧
    Items.render ⟨false, d2, true⟩ =
      Except.ok (Render.errorText "There was an error Skyy! ⚠️..") ∧
    Items.render
      ⟨false, JsVal.obj [("taskList", JsVal.arr (l.map Task.toJs))], false⟩ =
      Except.ok (Render.itemsList
        (l.map (fun t => ⟨JsVal.str t.id, Task.toJs t⟩))) := by
  refine ⟨rfl, rfl, ?_⟩
  show (Items.renderChildren (l.map Task.toJs)).map Render.itemsList =
    Except.ok (Render.itemsList
      (l.map (fun t => ⟨JsVal.str t.id, Task.toJs t⟩)))
  rw [renderChildren_tasks l]
  rfl

end Client
